import Mathlib

/-!
Verification of the linkbox backend (src/backend/linkbox/linkbox.go).

The definitions below are a shallow embedding of the backend's control
logic.  Network effects are replaced by explicit oracles (the response a
call would have produced) and by call logs (the list of server mutations a
run issues), so that each function is a pure Lean counterpart of the Go
control flow it is named after.
-/

/-- A remote file or directory record, mirroring `api.Entity` in
src/backend/linkbox/api/types.go.  `ctime` and sizes are kept as `Int`
(Go `int`/`int64`); `modTime` values derived from it stand for
`time.Unix(ctime, 0)`. -/
structure Entity where
  type : String
  subType : String
  name : String
  url : String
  ctime : Int
  size : Int
  id : Int
  pid : Int
  itemId : String
deriving DecidableEq, Repr

/-- The zero value `api.Entity{}` of Go. -/
def entityZero : Entity :=
  { type := "", subType := "", name := "", url := "", ctime := 0, size := 0,
    id := 0, pid := 0, itemId := "" }

/-! ## Retry classifier (linkbox.go `retryErrorCodes`, `shouldRetry`) -/

/-- The slice `retryErrorCodes` of linkbox.go (lines 1083-1092). -/
def retryErrorCodes : List Nat := [400, 401, 408, 429, 500, 502, 503, 504]

/-- `fserrors.ShouldRetryHTTP(resp, codes)` of the rclone framework: true
exactly when there is a response whose status code occurs in `codes`.
`none` stands for a nil response. -/
def shouldRetryHTTP (resp : Option Nat) (codes : List Nat) : Bool :=
  match resp with
  | none => false
  | some code => codes.any (fun e => code == e)

/-- `(*Fs).shouldRetry` of linkbox.go (lines 1096-1101).  `ctxErr` stands
for `fserrors.ContextError(ctx, &err)` (context cancelled or expired);
`transportRetry` stands for `fserrors.ShouldRetry(err)` (a retryable
transport-level error); `resp` is the HTTP status of the response, if any. -/
def shouldRetry (ctxErr transportRetry : Bool) (resp : Option Nat) : Bool :=
  if ctxErr then false
  else transportRetry || shouldRetryHTTP resp retryErrorCodes

/-! ## Control-plane status classifiers
(_ServerFolderEdit, _ServerFolderMove, _ServerFileRename, _ServerFileMove,
and the folder_create check inside Mkdir). -/

/-- Status handling of `_ServerFolderEdit` (linkbox.go lines 785-793):
only status 1 is success. -/
def serverFolderEdit (status : Int) (msg : String) : Except String Unit :=
  if status ≠ 1 then Except.error ("error folder_edit: " ++ msg)
  else Except.ok ()

/-- Status handling of `_ServerFolderMove` (linkbox.go lines 807-815):
only status 1 is success. -/
def serverFolderMove (status : Int) (msg : String) : Except String Unit :=
  if status ≠ 1 then Except.error ("error folder_move: " ++ msg)
  else Except.ok ()

/-- Status handling of `_ServerFileRename` (linkbox.go lines 1026-1034):
status 1 and 1501 are success. -/
def serverFileRename (status : Int) (msg : String) : Except String Unit :=
  if status ≠ 1 ∧ status ≠ 1501 then Except.error ("error file_rename: " ++ msg)
  else Except.ok ()

/-- Status handling of `_ServerFileMove` (linkbox.go lines 1048-1056):
status 1 and 1501 are success. -/
def serverFileMove (status : Int) (msg : String) : Except String Unit :=
  if status ≠ 1 ∧ status ≠ 1501 then Except.error ("error file_move: " ++ msg)
  else Except.ok ()

/-- The per-component `folder_create` status check inside `Mkdir`
(linkbox.go lines 682-696).  For the final path component the loop breaks
before the status check (`if i+1 == len(dirs)-1`), so any status is let
through; otherwise status 1 and 1501 are success and anything else is an
error carrying the remote message. -/
def mkdirFolderCreateCheck (isLastComponent : Bool) (status : Int)
    (dir msg : String) : Except String Unit :=
  if isLastComponent then Except.ok ()
  else if status ≠ 1 ∧ status ≠ 1501 then
    Except.error ("could not create dir[" ++ dir ++ "]: " ++ msg)
  else Except.ok ()

/-! ## Upload entry dispatch (Object.Update, Fs.Put) -/

/-- `minPartSize` of linkbox.go (100 KiB). -/
def minPartSize : Int := 102400

/-- The entry dispatch of `(*Object).Update` (linkbox.go lines 1487-1494),
with the two continuations (the multipart body and the single-PUT body)
abstracted as the result-and-call-log pair they would produce.  The
zero-size check precedes every remote call, which is why the error branch
carries an empty call log. -/
def updateGo (txConcurrency srcSize : Int)
    (multipartRun singlePutRun : Except String Unit × List String) :
    Except String Unit × List String :=
  if 0 < txConcurrency ∧ minPartSize ≤ srcSize then multipartRun
  else if srcSize = 0 then (Except.error "ErrorCantUploadEmptyFiles", [])
  else singlePutRun

/-- `(*Fs).Put` (linkbox.go lines 1753-1761) builds an object and calls
`Update` on it; its dispatch is that of `updateGo`. -/
def putGo (txConcurrency srcSize : Int)
    (multipartRun singlePutRun : Except String Unit × List String) :
    Except String Unit × List String :=
  updateGo txConcurrency srcSize multipartRun singlePutRun

/-! ## Post-bind reconciliation (tails of `Update` and `_MultipartUpload`) -/

/-- The mutable object fields that `Update` and `_MultipartUpload` fill in
(the `Object` struct of linkbox.go, lines 144-156).  `modTime` is seconds
since epoch: `time.Unix(ctime, 0)` is represented by `ctime` itself. -/
structure ObjectState where
  remote : String
  size : Int
  modTime : Int
  contentType : String
  subType : String
  fullURL : String
  pid : Int
  isDir : Bool
  id : Int
  itemId : String
deriving DecidableEq, Repr

/-- The test `err != nil || newObject == (api.Entity{})` applied to the
outcome of `getObjectWithRetries` (which returns the zero entity whenever
it returns an error). -/
def searchFailed (search : Except Unit Entity) : Bool :=
  match search with
  | Except.error _ => true
  | Except.ok e => e == entityZero

/-- The entity value `newObject` holds after `getObjectWithRetries`
returns: the found entity on success, the zero entity on error. -/
def searchEntity (search : Except Unit Entity) : Entity :=
  match search with
  | Except.error _ => entityZero
  | Except.ok e => e

/-- The field assignments at the end of `Update` (linkbox.go lines
1609-1618) and `_MultipartUpload` (lines 1468-1477): copy the reconciled
entity into the object, taking the size from the request. -/
def fillFromEntity (o : ObjectState) (e : Entity) (pid srcSize : Int) :
    ObjectState :=
  { o with
    pid := pid, fullURL := e.url, id := e.id, itemId := e.itemId,
    isDir := e.type == "dir" || e.type == "sdir", contentType := e.type,
    subType := e.subType, modTime := e.ctime, size := srcSize }

/-- The fallback assignments in `Update` (linkbox.go lines 1594-1603) and
`_MultipartUpload` (lines 1454-1463): synthesize the object from the bind
response's item-ID and the request data, with mod-time `now`. -/
def synthesizeFromResponse (o : ObjectState) (respItemId : String)
    (pid srcSize now : Int) : ObjectState :=
  { o with pid := pid, itemId := respItemId, size := srcSize, modTime := now }

/-- The post-bind tail of `_MultipartUpload` (linkbox.go lines 1452-1479):
on a failed reconciliation search, fall back to the response item-ID when
it is non-empty, otherwise return an error; on a successful search, fill
the object from the found entity. -/
def multipartPostBind (o : ObjectState) (search : Except Unit Entity)
    (respItemId : String) (pid srcSize now : Int) : Except Unit ObjectState :=
  if searchFailed search then
    if respItemId ≠ "" then
      Except.ok (synthesizeFromResponse o respItemId pid srcSize now)
    else Except.error ()
  else Except.ok (fillFromEntity o (searchEntity search) pid srcSize)

/-- The post-bind tail of the single-PUT `Update` (linkbox.go lines
1592-1620): on a failed reconciliation search with a non-empty response
item-ID, synthesize and return; otherwise it only logs and falls through,
filling the object from `newObject` (the zero entity when the search
failed) and returning success unconditionally. -/
def updatePostBind (o : ObjectState) (search : Except Unit Entity)
    (respItemId : String) (pid srcSize now : Int) : ObjectState :=
  if searchFailed search ∧ respItemId ≠ "" then
    synthesizeFromResponse o respItemId pid srcSize now
  else fillFromEntity o (searchEntity search) pid srcSize

/-! ## purgeCheck and Rmdir -/

/-- Errors that `purgeCheck` can surface. -/
inductive PurgeErr where
  | directoryNotEmpty
  | dirNotFound
  | responseErr
  | remoteMsg (msg : String)
  | idLookup
deriving DecidableEq, Repr

/-- `(*Fs).purgeCheck` (linkbox.go lines 709-748).  `objects` is the
outcome of `parse` on the directory (its error, if any, is discarded by
the code); `fullPathIsRootEmpty` stands for `path.Join(f.root, dir) == ""`;
`dirId` is the outcome of `getIdByDir`; `delResp` is the `folder_del`
response (`none` standing for a transport or decode failure).  The second
component is the log of mutating server calls issued. -/
def purgeCheck (objects : List Entity) (check : Bool)
    (fullPathIsRootEmpty : Bool) (dirId : Except Unit Int)
    (delResp : Option (Int × String)) : Except PurgeErr Unit × List String :=
  if check ∧ objects.length ≠ 0 then (Except.error PurgeErr.directoryNotEmpty, [])
  else if fullPathIsRootEmpty then (Except.error PurgeErr.dirNotFound, [])
  else match dirId with
  | Except.error _ => (Except.error PurgeErr.idLookup, [])
  | Except.ok _ =>
    match delResp with
    | none => (Except.error PurgeErr.responseErr, ["folder_del"])
    | some (st, msg) =>
      if st ≠ 1 then (Except.error (PurgeErr.remoteMsg msg), ["folder_del"])
      else (Except.ok (), ["folder_del"])

/-- `(*Fs).Rmdir` (linkbox.go lines 753-755): `purgeCheck` with the
emptiness check enabled. -/
def rmdirGo (objects : List Entity) (fullPathIsRootEmpty : Bool)
    (dirId : Except Unit Int) (delResp : Option (Int × String)) :
    Except PurgeErr Unit × List String :=
  purgeCheck objects true fullPathIsRootEmpty dirId delResp

/-! ## File move with rename (_MoveFile, both parent and leaf change) -/

/-- The candidate leaf names tried by the temporary-name loop of
`_MoveFile` (linkbox.go lines 943-955): the destination leaf itself for
i = 0, and the destination leaf with suffix underscore-underscore-i for
i ≥ 1 (`tmpSrcRemote + "__" + strconv.Itoa(i)`). -/
def cand (dstLeaf : String) : Nat → String
  | 0 => dstLeaf
  | Nat.succ i => dstLeaf ++ "__" ++ toString (i + 1)

/-- A server mutation issued by `_MoveFile`. -/
inductive MoveStep where
  | fileRename (name : String)
  | fileMove (pid : Int)
deriving DecidableEq, Repr

/-- The environment of one `_MoveFile` run with both parent and leaf
changing: whether a candidate leaf resolves (NewObject succeeds) under the
source and the destination parent, the outcome of resolving the
destination parent id (getIdByDir with its Mkdir fallback), whether a
file_rename to a given name succeeds, whether a file_move to a given
parent succeeds, and whether the final reconciliation lookup succeeds. -/
structure MoveFileEnv where
  srcExists : String → Bool
  dstExists : String → Bool
  dstPid : Except Unit Int
  renameOk : String → Bool
  moveOk : Int → Bool
  reconcileOk : Bool

/-- Candidate i is usable: it resolves under neither parent (linkbox.go
lines 957-965). -/
def candFree (env : MoveFileEnv) (dstLeaf : String) (i : Nat) : Bool :=
  !env.srcExists (cand dstLeaf i) && !env.dstExists (cand dstLeaf i)

/-- The body run on the first free candidate (linkbox.go lines 967-998):
resolve the destination parent, rename the source to the candidate, move
it to the destination parent, and rename it to the final leaf when the
candidate differs from that leaf.  Returns whether every step succeeded,
together with the log of server mutations issued (a failed call is logged
as issued). -/
def moveBody (env : MoveFileEnv) (dstLeaf : String) (i : Nat) :
    Bool × List MoveStep :=
  match env.dstPid with
  | Except.error _ => (false, [])
  | Except.ok pid =>
    let c := cand dstLeaf i
    if env.renameOk c = false then (false, [MoveStep.fileRename c])
    else if env.moveOk pid = false then
      (false, [MoveStep.fileRename c, MoveStep.fileMove pid])
    else if c = dstLeaf then
      (true, [MoveStep.fileRename c, MoveStep.fileMove pid])
    else if env.renameOk dstLeaf = false then
      (false, [MoveStep.fileRename c, MoveStep.fileMove pid,
               MoveStep.fileRename dstLeaf])
    else
      (true, [MoveStep.fileRename c, MoveStep.fileMove pid,
              MoveStep.fileRename dstLeaf])

/-- The candidate loop `for i := 0; i <= 100; i++` of `_MoveFile`
(linkbox.go lines 950-999): skip candidates that resolve under either
parent, run the body on the first free one.  `fuel` counts the remaining
iterations (101 at entry); at zero the loop has exhausted every candidate
and falls through with no server call made. -/
def moveLoopAux (env : MoveFileEnv) (dstLeaf : String) :
    Nat → Nat → Bool × List MoveStep
  | _, 0 => (true, [])
  | i, Nat.succ fuel =>
    if candFree env dstLeaf i then moveBody env dstLeaf i
    else moveLoopAux env dstLeaf (i + 1) fuel

/-- The both-parent-and-leaf-change branch of `_MoveFile` (linkbox.go
lines 942-1012): the candidate loop followed by the reconciliation lookup
of the destination (lines 1002-1010).  The first component is true when
the move returns the new object and false when it returns
fs.ErrorCantMove; the second is the log of server mutations issued. -/
def moveFileBothChange (env : MoveFileEnv) (dstLeaf : String) :
    Bool × List MoveStep :=
  let r := moveLoopAux env dstLeaf 0 101
  if r.1 = false then (false, r.2)
  else if env.reconcileOk then (true, r.2)
  else (false, r.2)

/-- A move environment in which no candidate name resolves anywhere and
every server call succeeds, with destination parent id 7. -/
def moveEnvAllFree : MoveFileEnv :=
  { srcExists := fun _ => false, dstExists := fun _ => false,
    dstPid := Except.ok 7, renameOk := fun _ => true,
    moveOk := fun _ => true, reconcileOk := true }

/-! ## Multipart download (Object.Open) -/

/-- `minDownloadPartSize` of linkbox.go (1 MiB). -/
def minDownloadPartSize : Nat := 1048576

/-- The byte range fetched by worker i in the multipart branch of
`(*Object).Open` (linkbox.go lines 1196-1208): `start_ = start + i*partSize`,
`end_ = start + (i+1)*partSize - 1`, except that the last worker, when a
remainder exists, ends at `start_ + remainder - 1`. -/
def downloadPart (start partSize remainder c : Nat) (i : Nat) : Nat × Nat :=
  if i = c - 1 ∧ remainder ≠ 0 then
    (start + i * partSize, start + i * partSize + remainder - 1)
  else
    (start + i * partSize, start + (i + 1) * partSize - 1)

/-- The list of per-part ranges of the multipart branch of `Open`
(linkbox.go lines 1175-1209): `length = end - start + 1`,
`partSize = length / concurrency`, `remainder = length % concurrency`,
and one extra worker when the remainder is non-zero. -/
def downloadRanges (start endPos n : Nat) : List (Nat × Nat) :=
  let length := endPos - start + 1
  let partSize := length / n
  let remainder := length % n
  let c := if remainder ≠ 0 then n + 1 else n
  (List.range c).map (downloadPart start partSize remainder c)

/-- The number of bytes a byte range covers. -/
def rangeSize (r : Nat × Nat) : Nat := r.2 - r.1 + 1

/-- Consecutive ranges in the list are adjacent: each begins one byte
after its predecessor ends. -/
def adjacentOk : List (Nat × Nat) → Bool
  | [] => true
  | [_] => true
  | a :: b :: rest => (b.1 == a.2 + 1) && adjacentOk (b :: rest)

/-- The first component of an optional range equals v. -/
def fstIs (r : Option (Nat × Nat)) (v : Nat) : Bool :=
  match r with
  | some r => r.1 == v
  | none => false

/-- The second component of an optional range equals v. -/
def sndIs (r : Option (Nat × Nat)) (v : Nat) : Bool :=
  match r with
  | some r => r.2 == v
  | none => false

/-- `parts` tiles the byte range from `start` to `endPos` exactly:
non-empty, the first part starts at `start`, the last part ends at
`endPos`, consecutive parts are adjacent (no gap, no overlap), and every
part is non-empty. -/
def tilesB (start endPos : Nat) (parts : List (Nat × Nat)) : Bool :=
  !parts.isEmpty && fstIs parts[0]? start
    && sndIs parts[parts.length - 1]? endPos
    && adjacentOk parts && parts.all (fun r => decide (r.1 ≤ r.2))

/-- What `Open` does with a read request: a single GET (with 0, 0 meaning
the whole object via the framework options) or a set of parallel part
fetches. -/
inductive OpenPlan where
  | single (start endPos : Nat)
  | multi (parts : List (Nat × Nat))
deriving DecidableEq, Repr

/-- The dispatch of `(*Object).Open` (linkbox.go lines 1153-1209): single
GET when multipart download is disabled, when there is not exactly one
(forward, non-negative) range option, when the computed concurrency is 1,
or when the part size falls below the minimum; otherwise the multipart
part ranges. -/
def openPlanGo (rxConcurrency : Nat) (hasSingleRange : Bool)
    (start endPos : Nat) : OpenPlan :=
  if rxConcurrency = 0 then OpenPlan.single 0 0
  else if ¬ hasSingleRange then OpenPlan.single 0 0
  else
    let length := endPos - start + 1
    let partSize := length / rxConcurrency
    let remainder := length % rxConcurrency
    let c := if remainder ≠ 0 then rxConcurrency + 1 else rxConcurrency
    if c = 1 then OpenPlan.single start endPos
    else if partSize < minDownloadPartSize then OpenPlan.single 0 0
    else OpenPlan.multi (downloadRanges start endPos rxConcurrency)

/-! ## Search pagination (getObject and getIdByDir) -/

/-- `maxEntitiesPerPage` of linkbox.go (64). -/
def maxEntitiesPerPage : Nat := 64

/-- A decoded `file_search` response page.  Transport and decode failures
are not modelled: `pages` oracles below always deliver a page, and the
non-1 status stands in for every failed call. -/
structure SearchPage where
  status : Int
  msg : String
  entities : List Entity

/-- The match test of `getObject` (linkbox.go line 538): same parent id
and decoded name equal to the searched name (`dec` stands for the
`f.opt.Enc.ToStandardName` collaborator). -/
def entityMatches (dec : String → String) (name : String) (pid : Int)
    (e : Entity) : Bool :=
  e.pid == pid && dec e.name == name

/-- The outcome of the `getObject` pagination loop. -/
inductive ObjectSearchOutcome where
  | found (e : Entity)
  | objectNotFound
  | tooManyResults
  | badStatus (msg : String)
deriving DecidableEq, Repr

/-- The pagination loop of `getObject` (linkbox.go lines 519-552).
`pages` maps 1-based page numbers to search responses, `pageNumber` is
the number of pages fetched so far, and `fuel` bounds the recursion; the
page-number cap makes the zero-fuel fallback unreachable from the entry
fuel.  Returns the outcome and the number of pages fetched.  The check
order mirrors the code: response status, match scan with break, page
cap, then the loop condition (the page held exactly 64 entities). -/
def getObjectLoop (dec : String → String) (pages : Nat → SearchPage)
    (name : String) (pid : Int) : Nat → Nat → ObjectSearchOutcome × Nat
  | pageNumber, 0 => (ObjectSearchOutcome.tooManyResults, pageNumber)
  | pageNumber, Nat.succ fuel =>
    let pn := pageNumber + 1
    let page := pages pn
    if page.status ≠ 1 then (ObjectSearchOutcome.badStatus page.msg, pn)
    else match page.entities.find? (entityMatches dec name pid) with
    | some e => (ObjectSearchOutcome.found e, pn)
    | none =>
      if pn > 100000 then (ObjectSearchOutcome.tooManyResults, pn)
      else if page.entities.length = maxEntitiesPerPage then
        getObjectLoop dec pages name pid pn fuel
      else (ObjectSearchOutcome.objectNotFound, pn)

/-- `getObject` (linkbox.go lines 516-559) as its pagination loop started
at page 0, with enough fuel that the page cap alone bounds recursion. -/
def getObjectGo (dec : String → String) (pages : Nat → SearchPage)
    (name : String) (pid : Int) : ObjectSearchOutcome × Nat :=
  getObjectLoop dec pages name pid 0 100002

/-- The outcome of one path component's pagination loop in `getIdByDir`. -/
inductive DirSearchOutcome where
  | found (pid : Int)
  | dirNotFound
  | tooManyResults
deriving DecidableEq, Repr

/-- The scan of one page in `getIdByDir` (linkbox.go lines 264-271): fold
over the entities, updating the running directory id whenever an entity's
parent equals the current id, its type is dir or sdir and its decoded
name is the searched component (the running id is live inside the fold,
as in the Go loop); the flag records whether any entity matched. -/
def scanDirPage (dec : String → String) (tdir : String)
    (entities : List Entity) (acc : Int × Bool) : Int × Bool :=
  entities.foldl
    (fun acc e =>
      if e.pid == acc.1 && (e.type == "dir" || e.type == "sdir")
          && dec e.name == tdir
      then (e.id, true) else acc)
    acc

/-- The pagination loop for one path component of `getIdByDir`
(linkbox.go lines 249-282).  The check order mirrors the code: empty
page, id-changed break, page cap, loop condition; when the loop exits on
a short page, the found flag decides between keeping the id and
dir-not-found (linkbox.go lines 284-286). -/
def getIdByDirLoop (dec : String → String) (pages : Nat → SearchPage)
    (tdir : String) (pid : Int) : Bool → Nat → Nat → DirSearchOutcome × Nat
  | _, pageNumber, 0 => (DirSearchOutcome.tooManyResults, pageNumber)
  | isFound, pageNumber, Nat.succ fuel =>
    let pn := pageNumber + 1
    let page := pages pn
    if page.entities.length = 0 then (DirSearchOutcome.dirNotFound, pn)
    else
      let s := scanDirPage dec tdir page.entities (pid, isFound)
      if s.1 ≠ pid then (DirSearchOutcome.found s.1, pn)
      else if pn > 100000 then (DirSearchOutcome.tooManyResults, pn)
      else if page.entities.length = maxEntitiesPerPage then
        getIdByDirLoop dec pages tdir pid s.2 pn fuel
      else if s.2 then (DirSearchOutcome.found pid, pn)
      else (DirSearchOutcome.dirNotFound, pn)

/-- One path component of `getIdByDir` (linkbox.go lines 244-287) as its
pagination loop started at page 0 with the found flag cleared. -/
def getIdByDirGo (dec : String → String) (pages : Nat → SearchPage)
    (tdir : String) (pid : Int) : DirSearchOutcome × Nat :=
  getIdByDirLoop dec pages tdir pid false 0 100002

/-- A search page carrying an OK status and no entities. -/
def emptyOkPage : SearchPage := { status := 1, msg := "", entities := [] }

/-- A full search page (64 entities) none of which matches name "a" or
component "d" under parent id 0. -/
def fullNoMatchPage : SearchPage :=
  { status := 1, msg := "",
    entities := List.replicate 64 { entityZero with name := "other", pid := 1 } }

/-! # Theorems -/

/-- C1: the claim states that the retry classifier retries exactly on
transport errors or HTTP codes in 429, 500, 502, 503, 504, 509.  This is
false on the code: `retryErrorCodes` also contains 400, 401 and 408 (so a
400 response is retried), and does not contain 509 (so a 509 response is
not retried). -/
theorem retry_classifier_spec_false :
    shouldRetry false false (some 400) = true
    ∧ ([429, 500, 502, 503, 504, 509] : List Nat).contains 400 = false
    ∧ shouldRetry false false (some 509) = false
    ∧ ([429, 500, 502, 503, 504, 509] : List Nat).contains 509 = true := by
  decide

/-- C1 (amended): the classifier retries exactly when the context is not
cancelled and either the error is a retryable transport error or the HTTP
status code is one of 400, 401, 408, 429, 500, 502, 503, 504; a cancelled
context suppresses the retry, and with no HTTP response only the
transport-error test decides. -/
theorem retry_classifier_amended :
    ∀ (t : Bool) (c : Nat),
      (shouldRetry false t (some c) = true ↔
        t = true ∨ c = 400 ∨ c = 401 ∨ c = 408 ∨ c = 429 ∨
        c = 500 ∨ c = 502 ∨ c = 503 ∨ c = 504)
      ∧ (∀ r, shouldRetry true t r = false)
      ∧ shouldRetry false t none = t := by
  intro t c
  refine ⟨?_, fun r => rfl, ?_⟩
  · simp [shouldRetry, shouldRetryHTTP, retryErrorCodes]
  · cases t <;> rfl

/-- C2: the claim states that all of file_rename, file_move,
folder_create, folder_edit and folder_move treat status 1501 as success.
This is false on the code: `_ServerFolderEdit` returns an error for
status 1501. -/
theorem status1501_folder_edit_error :
    serverFolderEdit 1501 "already exists" =
      Except.error "error folder_edit: already exists"
    ∧ serverFolderMove 1501 "already exists" =
      Except.error "error folder_move: already exists" := by
  constructor <;> rfl

/-- C2 (amended): file_rename and file_move treat status 1 and 1501 as
success and any other status as an error carrying msg; folder_edit and
folder_move treat only status 1 as success, 1501 included among the
errors; folder_create inside Mkdir accepts 1 and 1501 for non-final path
components and skips the status check entirely for the final component. -/
theorem status_classifier_amended :
    ∀ (status : Int) (dir msg : String),
      (serverFileRename status msg =
        if status = 1 ∨ status = 1501 then Except.ok ()
        else Except.error ("error file_rename: " ++ msg))
      ∧ (serverFileMove status msg =
        if status = 1 ∨ status = 1501 then Except.ok ()
        else Except.error ("error file_move: " ++ msg))
      ∧ (serverFolderEdit status msg =
        if status = 1 then Except.ok ()
        else Except.error ("error folder_edit: " ++ msg))
      ∧ (serverFolderMove status msg =
        if status = 1 then Except.ok ()
        else Except.error ("error folder_move: " ++ msg))
      ∧ (mkdirFolderCreateCheck true status dir msg = Except.ok ())
      ∧ (mkdirFolderCreateCheck false status dir msg =
        if status = 1 ∨ status = 1501 then Except.ok ()
        else Except.error ("could not create dir[" ++ dir ++ "]: " ++ msg)) := by
  intro status dir msg
  by_cases h1 : status = 1
  · simp [serverFileRename, serverFileMove, serverFolderEdit, serverFolderMove,
      mkdirFolderCreateCheck, h1]
  · by_cases h2 : status = 1501
    · simp [serverFileRename, serverFileMove, serverFolderEdit, serverFolderMove,
        mkdirFolderCreateCheck, h1, h2]
    · simp [serverFileRename, serverFileMove, serverFolderEdit, serverFolderMove,
        mkdirFolderCreateCheck, h1, h2]

/-- C7: an Update (and hence a Put) whose declared size is exactly 0
returns the cannot-upload-empty-files error, for every multipart
concurrency setting, and its call log is empty: the check precedes every
remote call, so the remote state is unchanged. -/
theorem update_empty_rejected :
    ∀ (txConcurrency : Int)
      (multipartRun singlePutRun : Except String Unit × List String),
      updateGo txConcurrency 0 multipartRun singlePutRun =
        (Except.error "ErrorCantUploadEmptyFiles", [])
      ∧ putGo txConcurrency 0 multipartRun singlePutRun =
        (Except.error "ErrorCantUploadEmptyFiles", []) := by
  intro c m s
  have h : ¬(0 < c ∧ minPartSize ≤ (0 : Int)) := by
    simp only [minPartSize]
    omega
  constructor <;> simp [updateGo, putGo, h]

/-- C6: for every upload whose bind call succeeded, if the post-bind
reconciliation search fails (error or zero entity) but the bind response
carried a non-empty item-ID, both the multipart tail and the single-PUT
tail return success with an object synthesized from the response and the
request: item-ID from the response, size from the request, mod-time set to
the current time. -/
theorem upload_synthesize_fallback :
    ∀ (o : ObjectState) (search : Except Unit Entity) (respItemId : String)
      (pid srcSize now : Int),
      searchFailed search = true → respItemId ≠ "" →
      multipartPostBind o search respItemId pid srcSize now =
        Except.ok { o with
          pid := pid, itemId := respItemId, size := srcSize, modTime := now }
      ∧ updatePostBind o search respItemId pid srcSize now =
        { o with
          pid := pid, itemId := respItemId, size := srcSize, modTime := now } := by
  intro o search respItemId pid srcSize now hfail hid
  constructor
  · simp [multipartPostBind, hfail, hid, synthesizeFromResponse]
  · simp [updatePostBind, hfail, hid, synthesizeFromResponse]

/-- C6 witness at a concrete failed search and non-empty item-ID. -/
theorem upload_synthesize_fallback_witness :
    multipartPostBind
        { remote := "a/b.txt", size := 0, modTime := 0, contentType := "",
          subType := "", fullURL := "", pid := 0, isDir := false, id := 0,
          itemId := "" }
        (Except.error ()) "item42" 5 1234 999 =
      Except.ok
        { remote := "a/b.txt", size := 1234, modTime := 999, contentType := "",
          subType := "", fullURL := "", pid := 5, isDir := false, id := 0,
          itemId := "item42" } :=
  (upload_synthesize_fallback
    { remote := "a/b.txt", size := 0, modTime := 0, contentType := "",
      subType := "", fullURL := "", pid := 0, isDir := false, id := 0,
      itemId := "" }
    (Except.error ()) "item42" 5 1234 999 rfl (by decide)).1

/-- C10: in the single-PUT path, when the reconciliation search fails and
the bind response's item-ID is empty, `Update` still succeeds and fills
the object from the zero entity: empty URL, empty item-ID, ID 0, mod-time
epoch 0, size from the request; in the same situation the multipart path
returns an error. -/
theorem update_zero_entity_success :
    ∀ (o : ObjectState) (search : Except Unit Entity) (pid srcSize now : Int),
      searchFailed search = true →
      updatePostBind o search "" pid srcSize now =
        { o with
          pid := pid, fullURL := "", id := 0, itemId := "",
          isDir := false, contentType := "", subType := "",
          modTime := 0, size := srcSize }
      ∧ multipartPostBind o search "" pid srcSize now = Except.error () := by
  intro o search pid srcSize now hfail
  have hent : searchEntity search = entityZero := by
    cases search with
    | error e => rfl
    | ok e =>
      have : e == entityZero := by simpa [searchFailed] using hfail
      simp [searchEntity, eq_of_beq this]
  constructor
  · simp [updatePostBind, hfail, hent, fillFromEntity, entityZero]
  · simp [multipartPostBind, hfail]

/-- C10 witness at a concrete failed search. -/
theorem update_zero_entity_success_witness :
    updatePostBind
        { remote := "a/b.txt", size := 7, modTime := 3, contentType := "doc",
          subType := "txt", fullURL := "u", pid := 9, isDir := true, id := 4,
          itemId := "old" }
        (Except.error ()) "" 5 1234 999 =
      { remote := "a/b.txt", size := 1234, modTime := 0, contentType := "",
        subType := "", fullURL := "", pid := 5, isDir := false, id := 0,
        itemId := "" } :=
  (update_zero_entity_success
    { remote := "a/b.txt", size := 7, modTime := 3, contentType := "doc",
      subType := "txt", fullURL := "u", pid := 9, isDir := true, id := 4,
      itemId := "old" }
    (Except.error ()) 5 1234 999 rfl).1

/-- C8: an Rmdir of a directory whose listing contains at least one entry
returns the DirectoryNotEmpty error with an empty call log: no folder_del
call is issued, so the directory and its contents are left intact. -/
theorem rmdir_nonempty_guard :
    ∀ (objects : List Entity) (fullPathIsRootEmpty : Bool)
      (dirId : Except Unit Int) (delResp : Option (Int × String)),
      objects ≠ [] →
      rmdirGo objects fullPathIsRootEmpty dirId delResp =
        (Except.error PurgeErr.directoryNotEmpty, []) := by
  intro objects root dirId delResp hne
  have h : True ∧ objects.length ≠ 0 := ⟨trivial, by simpa using hne⟩
  simp only [rmdirGo, purgeCheck]
  rw [if_pos ⟨trivial, h.2⟩]

/-- C8 witness at a concrete one-entry directory. -/
theorem rmdir_nonempty_guard_witness :
    rmdirGo [entityZero] false (Except.ok 3) (some (1, "")) =
      (Except.error PurgeErr.directoryNotEmpty, []) :=
  rmdir_nonempty_guard [entityZero] false (Except.ok 3) (some (1, "")) (by decide)

/-- The candidate loop runs its body on the first free candidate: all
candidates before i are skipped. -/
theorem moveLoopAux_min (env : MoveFileEnv) (dstLeaf : String) :
    ∀ (fuel k i : Nat), k ≤ i → i < k + fuel →
      (∀ j, k ≤ j → j < i → candFree env dstLeaf j = false) →
      candFree env dstLeaf i = true →
      moveLoopAux env dstLeaf k fuel = moveBody env dstLeaf i := by
  intro fuel
  induction fuel with
  | zero => intro k i hk hlt _ _; omega
  | succ fuel ih =>
    intro k i hk hlt hmin hfree
    by_cases hki : k = i
    · subst hki
      simp [moveLoopAux, hfree]
    · have hklt : k < i := lt_of_le_of_ne hk hki
      have hkfree : candFree env dstLeaf k = false := hmin k le_rfl hklt
      simp only [moveLoopAux, hkfree, Bool.false_eq_true, if_false]
      exact ih (k + 1) i hklt (by omega)
        (fun j hj hj2 => hmin j (by omega) hj2) hfree

/-- C3: the claim states that every both-parent-and-leaf move performs
rename-to-temporary, move-to-destination-parent and rename-to-final, in
that order, trying suffixes 0, 1, ... on the temporary.  This is false on
the code: candidate 0 is the bare destination leaf (no suffix, so no
suffix 0 is ever tried, the suffixed candidates starting at 1), and when
that candidate wins the final rename is skipped, so a fully successful
run issues exactly two server calls, not three. -/
theorem movefile_two_step_counterexample :
    moveFileBothChange moveEnvAllFree "y.txt" =
      (true, [MoveStep.fileRename "y.txt", MoveStep.fileMove 7])
    ∧ (moveFileBothChange moveEnvAllFree "y.txt").2.length = 2
    ∧ cand "y.txt" 0 = "y.txt"
    ∧ cand "y.txt" 1 = "y.txt__1" := by
  refine ⟨?_, ?_, rfl, rfl⟩ <;> rfl

/-- C3 (amended): when both parent and leaf change, the engine tries the
candidate leaves cand dstLeaf 0 = dstLeaf (unsuffixed) and
cand dstLeaf i = dstLeaf with suffix i for 1 ≤ i ≤ 100; on the first
candidate free under both parents it renames the source to that
candidate, moves it to the destination parent, and renames it to the
final leaf exactly when a suffixed candidate was used (suffixed
candidates never equal the destination leaf); failure of any step,
including destination-parent resolution and the final reconciliation
lookup, yields the generic cannot-move result. -/
theorem movefile_amended :
    ∀ (env : MoveFileEnv) (dstLeaf : String) (i : Nat), i ≤ 100 →
      (∀ j, j < i → candFree env dstLeaf j = false) →
      candFree env dstLeaf i = true →
      (moveFileBothChange env dstLeaf =
        ((moveBody env dstLeaf i).1 && env.reconcileOk,
         (moveBody env dstLeaf i).2))
      ∧ (∀ pid, env.dstPid = Except.ok pid →
          env.renameOk (cand dstLeaf i) = true → env.moveOk pid = true →
          ((i = 0 →
             moveBody env dstLeaf i =
               (true, [MoveStep.fileRename dstLeaf, MoveStep.fileMove pid]))
           ∧ (1 ≤ i → env.renameOk dstLeaf = true →
             moveBody env dstLeaf i =
               (true, [MoveStep.fileRename (cand dstLeaf i),
                       MoveStep.fileMove pid,
                       MoveStep.fileRename dstLeaf]))))
      ∧ (∀ j, 1 ≤ j → cand dstLeaf j ≠ dstLeaf) := by
  intro env dstLeaf i hi hmin hfree
  have hsuffix : ∀ j, 1 ≤ j → cand dstLeaf j ≠ dstLeaf := by
    intro j hj heq
    match j, hj with
    | Nat.succ m, _ =>
      have hlen := congrArg String.length heq
      have h2 : ("__" : String).length = 2 := rfl
      simp only [cand, String.length_append] at hlen
      omega
  have hloop : moveLoopAux env dstLeaf 0 101 = moveBody env dstLeaf i :=
    moveLoopAux_min env dstLeaf 101 0 i (Nat.zero_le i) (by omega)
      (fun j _ hj2 => hmin j hj2) hfree
  refine ⟨?_, ?_, hsuffix⟩
  · simp only [moveFileBothChange, hloop]
    cases hb : (moveBody env dstLeaf i).1 <;> cases hr : env.reconcileOk <;> simp [hb, hr]
  · intro pid hpid hren hmov
    constructor
    · intro hi0
      subst hi0
      have hren' : env.renameOk dstLeaf = true := by simpa [cand] using hren
      simp [moveBody, hpid, hren', hmov, cand]
    · intro hi1 hrenf
      have hne : cand dstLeaf i ≠ dstLeaf := hsuffix i hi1
      simp [moveBody, hpid, hren, hmov, hne, hrenf]

/-- C3 witness: the amended theorem applied at the all-free environment,
where the first candidate (index 0) wins. -/
theorem movefile_amended_witness :
    moveFileBothChange moveEnvAllFree "a.txt" =
      ((moveBody moveEnvAllFree "a.txt" 0).1 && moveEnvAllFree.reconcileOk,
       (moveBody moveEnvAllFree "a.txt" 0).2) :=
  (movefile_amended moveEnvAllFree "a.txt" 0 (by omega)
    (fun j hj => absurd hj (Nat.not_lt_zero j)) rfl).1

/-- First component of every download part. -/
theorem downloadPart_fst (start partSize remainder c i : Nat) :
    (downloadPart start partSize remainder c i).1 = start + i * partSize := by
  unfold downloadPart
  split <;> rfl

/-- Second component of a regular (non-last-with-remainder) part. -/
theorem downloadPart_snd_reg (start partSize remainder c i : Nat)
    (h : ¬(i = c - 1 ∧ remainder ≠ 0)) :
    (downloadPart start partSize remainder c i).2 =
      start + (i + 1) * partSize - 1 := by
  unfold downloadPart
  rw [if_neg h]

/-- Second component of the last part when a remainder exists. -/
theorem downloadPart_snd_last (start partSize remainder c : Nat)
    (hR : remainder ≠ 0) :
    (downloadPart start partSize remainder c (c - 1)).2 =
      start + (c - 1) * partSize + remainder - 1 := by
  unfold downloadPart
  rw [if_pos ⟨rfl, hR⟩]

/-- Adjacency of a mapped arithmetic index list, given pointwise
adjacency of the generating function. -/
theorem adjacentOk_chain (f : Nat → Nat × Nat) :
    ∀ (c k : Nat), (∀ i, k ≤ i → i < k + c → (f (i + 1)).1 = (f i).2 + 1) →
      adjacentOk (f k :: (List.range' (k + 1) c).map f) = true := by
  intro c
  induction c with
  | zero => intro k _; rfl
  | succ c ih =>
    intro k h
    rw [List.range'_succ]
    simp only [List.map_cons]
    show (((f (k + 1)).1 == (f k).2 + 1)
        && adjacentOk (f (k + 1) :: (List.range' (k + 1 + 1) c).map f)) = true
    rw [Bool.and_eq_true]
    constructor
    · exact beq_iff_eq.mpr (h k le_rfl (by omega))
    · exact ih (k + 1) (fun i hi hlt => h i (by omega) (by omega))

/-- A mapped index list whose generator starts at `start`, ends at
`endPos`, is pointwise adjacent and pointwise non-empty tiles the range. -/
theorem tilesB_of_parts (start endPos : Nat) (f : Nat → Nat × Nat) (c : Nat)
    (hc : 1 ≤ c) (hhead : (f 0).1 = start) (hlast : (f (c - 1)).2 = endPos)
    (hadj : ∀ i, i + 1 < c → (f (i + 1)).1 = (f i).2 + 1)
    (hne : ∀ i, i < c → (f i).1 ≤ (f i).2) :
    tilesB start endPos ((List.range c).map f) = true := by
  obtain ⟨m, rfl⟩ : ∃ m, c = m + 1 := ⟨c - 1, by omega⟩
  rw [tilesB]
  repeat rw [Bool.and_eq_true]
  refine ⟨⟨⟨⟨?_, ?_⟩, ?_⟩, ?_⟩, ?_⟩
  · simp
  · rw [List.getElem?_map, List.getElem?_range (by omega : 0 < m + 1)]
    simp [fstIs, hhead]
  · rw [List.length_map, List.length_range,
      List.getElem?_map, List.getElem?_range (by omega : m + 1 - 1 < m + 1)]
    simp only [Option.map_some', sndIs]
    simpa using hlast
  · rw [List.range_eq_range', List.range'_succ]
    simp only [List.map_cons]
    exact adjacentOk_chain f m 0 (fun i _ hlt => hadj i (by omega))
  · rw [List.all_eq_true]
    intro r hr
    rw [List.mem_map] at hr
    obtain ⟨i, hi, rfl⟩ := hr
    rw [List.mem_range] at hi
    exact decide_eq_true (hne i hi)


/-- C4: for a multipart download of the single byte range start..endPos
with configured concurrency n — n ≥ 1, a non-empty range, and at least one
byte per worker, as the engine's guards guarantee — with
L = endPos - start + 1, P = L / n and R = L % n: the plan has n parts plus
one extra part exactly when R ≠ 0; worker i < n fetches
bytes start + i*P through start + (i+1)*P - 1; the extra worker fetches
the final R bytes; the parts taken in ascending order tile the requested
range exactly, with no gap and no overlap; and under the engagement guards
(computed worker count not 1, part size at least the minimum) Open indeed
chooses exactly this plan. -/
theorem download_tiling (start endPos n : Nat) (hn : 1 ≤ n)
    (hse : start ≤ endPos) (hnl : n ≤ endPos - start + 1) :
    ((downloadRanges start endPos n).length =
      if (endPos - start + 1) % n ≠ 0 then n + 1 else n)
    ∧ (∀ i, i < n → (downloadRanges start endPos n)[i]? =
        some (start + i * ((endPos - start + 1) / n),
              start + (i + 1) * ((endPos - start + 1) / n) - 1))
    ∧ ((endPos - start + 1) % n ≠ 0 → (downloadRanges start endPos n)[n]? =
        some (start + n * ((endPos - start + 1) / n),
              start + n * ((endPos - start + 1) / n)
                + (endPos - start + 1) % n - 1))
    ∧ tilesB start endPos (downloadRanges start endPos n) = true
    ∧ ((if (endPos - start + 1) % n ≠ 0 then n + 1 else n) ≠ 1 →
        minDownloadPartSize ≤ (endPos - start + 1) / n →
        openPlanGo n true start endPos =
          OpenPlan.multi (downloadRanges start endPos n)) := by
  have hdm : n * ((endPos - start + 1) / n) + (endPos - start + 1) % n
      = endPos - start + 1 := Nat.div_add_mod _ n
  have hP1 : 1 ≤ (endPos - start + 1) / n :=
    (Nat.one_le_div_iff (by omega)).mpr hnl
  have hranges : downloadRanges start endPos n =
      (List.range (if (endPos - start + 1) % n ≠ 0 then n + 1 else n)).map
        (downloadPart start ((endPos - start + 1) / n)
          ((endPos - start + 1) % n)
          (if (endPos - start + 1) % n ≠ 0 then n + 1 else n)) := rfl
  have hopen : ∀ c : Nat,
      (if (endPos - start + 1) % n ≠ 0 then n + 1 else n) = c → c ≠ 1 →
      minDownloadPartSize ≤ (endPos - start + 1) / n →
      openPlanGo n true start endPos =
        OpenPlan.multi (downloadRanges start endPos n) := by
    intro c hceq hc1 hmin
    rw [openPlanGo]
    rw [if_neg (by omega : ¬ n = 0)]
    rw [if_neg (by simp : ¬ ¬ true = true)]
    simp only
    rw [hceq, if_neg hc1, if_neg (by omega : ¬ (endPos - start + 1) / n
      < minDownloadPartSize)]
  by_cases hR0 : (endPos - start + 1) % n = 0
  · -- no remainder: exactly n regular parts
    have hc : (if (endPos - start + 1) % n ≠ 0 then n + 1 else n) = n := by
      simp [hR0]
    have hmap : downloadRanges start endPos n =
        (List.range n).map
          (downloadPart start ((endPos - start + 1) / n) 0 n) := by
      rw [hranges, hc, hR0]
    have hreg : ∀ i, downloadPart start ((endPos - start + 1) / n) 0 n i =
        (start + i * ((endPos - start + 1) / n),
         start + (i + 1) * ((endPos - start + 1) / n) - 1) := by
      intro i
      rw [downloadPart, if_neg (by simp)]
    refine ⟨?_, ?_, ?_, ?_, ?_⟩
    · rw [hmap, hc]
      simp
    · intro i hi
      rw [hmap, List.getElem?_map, List.getElem?_range hi, Option.map_some',
        hreg i]
    · intro h
      exact absurd hR0 h
    · rw [hmap]
      refine tilesB_of_parts start endPos _ n hn ?_ ?_ ?_ ?_
      · rw [hreg 0]
        show start + 0 * ((endPos - start + 1) / n) = start
        omega
      · rw [hreg (n - 1)]
        show start + (n - 1 + 1) * ((endPos - start + 1) / n) - 1 = endPos
        have hm : n - 1 + 1 = n := by omega
        rw [hm]
        rw [hR0] at hdm
        omega
      · intro i hilt
        rw [hreg (i + 1), hreg i]
        show start + (i + 1) * ((endPos - start + 1) / n) =
          start + (i + 1) * ((endPos - start + 1) / n) - 1 + 1
        have h2 : 1 * 1 ≤ (i + 1) * ((endPos - start + 1) / n) :=
          Nat.mul_le_mul (by omega) hP1
        omega
      · intro i _
        rw [hreg i]
        show start + i * ((endPos - start + 1) / n) ≤
          start + (i + 1) * ((endPos - start + 1) / n) - 1
        have h2 : i * ((endPos - start + 1) / n) + 1
            ≤ (i + 1) * ((endPos - start + 1) / n) := by
          rw [Nat.succ_mul]
          omega
        omega
    · intro hc1 hmin
      rw [hc] at hc1
      exact hopen n hc hc1 hmin
  · -- remainder: n regular parts and one short extra part
    have hc : (if (endPos - start + 1) % n ≠ 0 then n + 1 else n) = n + 1 := by
      simp [hR0]
    have hmap : downloadRanges start endPos n =
        (List.range (n + 1)).map
          (downloadPart start ((endPos - start + 1) / n)
            ((endPos - start + 1) % n) (n + 1)) := by
      rw [hranges, hc]
    have hreg : ∀ i, i < n →
        downloadPart start ((endPos - start + 1) / n)
          ((endPos - start + 1) % n) (n + 1) i =
        (start + i * ((endPos - start + 1) / n),
         start + (i + 1) * ((endPos - start + 1) / n) - 1) := by
      intro i hi
      have hni : ¬(i = n + 1 - 1 ∧ (endPos - start + 1) % n ≠ 0) :=
        fun h => absurd h.1 (by omega)
      rw [downloadPart, if_neg hni]
    have hlastpart : downloadPart start ((endPos - start + 1) / n)
        ((endPos - start + 1) % n) (n + 1) n =
        (start + n * ((endPos - start + 1) / n),
         start + n * ((endPos - start + 1) / n)
           + (endPos - start + 1) % n - 1) := by
      rw [downloadPart, if_pos ⟨by omega, hR0⟩]
    refine ⟨?_, ?_, ?_, ?_, ?_⟩
    · rw [hmap, hc]
      simp
    · intro i hi
      rw [hmap, List.getElem?_map, List.getElem?_range (by omega : i < n + 1),
        Option.map_some', hreg i hi]
    · intro _
      rw [hmap, List.getElem?_map, List.getElem?_range (by omega : n < n + 1),
        Option.map_some', hlastpart]
    · rw [hmap]
      refine tilesB_of_parts start endPos _ (n + 1) (by omega) ?_ ?_ ?_ ?_
      · rw [hreg 0 (by omega)]
        show start + 0 * ((endPos - start + 1) / n) = start
        omega
      · show (downloadPart start ((endPos - start + 1) / n)
          ((endPos - start + 1) % n) (n + 1) n).2 = endPos
        rw [hlastpart]
        show start + n * ((endPos - start + 1) / n)
          + (endPos - start + 1) % n - 1 = endPos
        omega
      · intro i hilt
        rw [downloadPart_fst, hreg i (by omega)]
        show start + (i + 1) * ((endPos - start + 1) / n) =
          start + (i + 1) * ((endPos - start + 1) / n) - 1 + 1
        have h2 : 1 * 1 ≤ (i + 1) * ((endPos - start + 1) / n) :=
          Nat.mul_le_mul (by omega) hP1
        omega
      · intro i hilt
        by_cases hin : i = n
        · rw [hin, hlastpart]
          show start + n * ((endPos - start + 1) / n) ≤
            start + n * ((endPos - start + 1) / n)
              + (endPos - start + 1) % n - 1
          omega
        · rw [hreg i (by omega)]
          show start + i * ((endPos - start + 1) / n) ≤
            start + (i + 1) * ((endPos - start + 1) / n) - 1
          have h2 : i * ((endPos - start + 1) / n) + 1
              ≤ (i + 1) * ((endPos - start + 1) / n) := by
            rw [Nat.succ_mul]
            omega
          omega
    · intro hc1 hmin
      rw [hc] at hc1
      exact hopen (n + 1) hc hc1 hmin

/-- C4 witness: range 0..9 with concurrency 2 (L = 10, P = 5, R = 0)
tiles into two parts of five bytes each. -/
theorem download_tiling_witness :
    tilesB 0 9 (downloadRanges 0 9 2) = true
    ∧ (downloadRanges 0 9 2).length = 2 :=
  ⟨(download_tiling 0 9 2 (by decide) (by decide) (by decide)).2.2.2.1,
   by
    have h := (download_tiling 0 9 2 (by decide) (by decide) (by decide)).1
    simpa using h⟩

/-- C5: the claim states that a 5 MiB object opened with the range
0..5242879 at download concurrency 3 is fetched in exactly three part
reads of sizes 1747626, 1747626 and 1747628.  This is false on the code:
L = 5242880, P = 1747626, R = 2, and the non-zero remainder adds an extra
worker, so the engine performs four part reads of sizes 1747626, 1747626,
1747626 and 2.  The code does not widen the last of the three workers; it
appends a fourth. -/
theorem download_plan_5mib_counterexample :
    (downloadRanges 0 5242879 3).length = 4
    ∧ (downloadRanges 0 5242879 3).map rangeSize =
        [1747626, 1747626, 1747626, 2]
    ∧ ¬ (downloadRanges 0 5242879 3).length = 3 := by
  refine ⟨rfl, rfl, by decide⟩

/-- C5 (amended): opening with the single range 0..5242879 at concurrency
3 engages the multipart plan with exactly four part reads, of sizes
1747626, 1747626, 1747626 and 2 bytes, whose concatenation in ascending
order tiles the requested 5 MiB range exactly. -/
theorem download_plan_5mib_amended :
    openPlanGo 3 true 0 5242879 =
      OpenPlan.multi [(0, 1747625), (1747626, 3495251),
                      (3495252, 5242877), (5242878, 5242879)]
    ∧ (downloadRanges 0 5242879 3).map rangeSize =
        [1747626, 1747626, 1747626, 2]
    ∧ tilesB 0 5242879 (downloadRanges 0 5242879 3) = true := by
  refine ⟨rfl, rfl, rfl⟩

/-- The `getObject` loop never fetches more pages than one past the cap. -/
theorem getObjectLoop_pages_le (dec : String → String)
    (pages : Nat → SearchPage) (name : String) (pid : Int) :
    ∀ (fuel pageNumber : Nat), pageNumber ≤ 100000 →
      (getObjectLoop dec pages name pid pageNumber fuel).2 ≤ 100001 := by
  intro fuel
  induction fuel with
  | zero =>
    intro p hp
    simp only [getObjectLoop]
    omega
  | succ fuel ih =>
    intro p hp
    simp only [getObjectLoop]
    split
    next => omega
    next =>
      split
      next => omega
      next =>
        split
        next => omega
        next hcap =>
          split
          next => exact ih (p + 1) (by omega)
          next => omega

/-- When every page before p is full (status 1, 64 entities, no match)
and page p is OK, matchless and short, the `getObject` loop stops exactly
at page p with object-not-found. -/
theorem getObjectLoop_stop (dec : String → String) (pages : Nat → SearchPage)
    (name : String) (pid : Int) (p : Nat)
    (hfull : ∀ j, 1 ≤ j → j < p → (pages j).status = 1
      ∧ (pages j).entities.find? (entityMatches dec name pid) = none
      ∧ (pages j).entities.length = maxEntitiesPerPage)
    (hpcap : p ≤ 100000)
    (hstat : (pages p).status = 1)
    (hnomatch : (pages p).entities.find? (entityMatches dec name pid) = none)
    (hshort : (pages p).entities.length < maxEntitiesPerPage) :
    ∀ (fuel k : Nat), k < p → p ≤ k + fuel →
      getObjectLoop dec pages name pid k fuel =
        (ObjectSearchOutcome.objectNotFound, p) := by
  intro fuel
  induction fuel with
  | zero => intro k h1 h2; omega
  | succ fuel ih =>
    intro k h1 h2
    by_cases hkp : k + 1 = p
    · subst hkp
      simp only [getObjectLoop]
      split
      next hs => exact absurd hstat hs
      next =>
        split
        next e hfind =>
          rw [hnomatch] at hfind
          simp at hfind
        next =>
          split
          next hcap => exact absurd hcap (by omega)
          next =>
            split
            next hlen => exact absurd hlen (by omega)
            next => rfl
    · have hk1 := hfull (k + 1) (by omega) (by omega)
      simp only [getObjectLoop]
      split
      next hs => exact absurd hk1.1 hs
      next =>
        split
        next e hfind =>
          rw [hk1.2.1] at hfind
          simp at hfind
        next =>
          split
          next hcap => exact absurd hcap (by omega)
          next =>
            split
            next => exact ih (k + 1) (by omega) (by omega)
            next hlen => exact absurd hk1.2.2 hlen

/-- When pages 1 through 100000 are all full (status 1, 64 entities, no
match) and page 100001 is OK and matchless, the `getObject` loop fetches
page 100001 and stops with the too-many-results error: the page-number
cap bounds the iteration. -/
theorem getObjectLoop_cap (dec : String → String) (pages : Nat → SearchPage)
    (name : String) (pid : Int)
    (hfull : ∀ j, 1 ≤ j → j ≤ 100000 → (pages j).status = 1
      ∧ (pages j).entities.find? (entityMatches dec name pid) = none
      ∧ (pages j).entities.length = maxEntitiesPerPage)
    (hstat : (pages 100001).status = 1)
    (hnomatch :
      (pages 100001).entities.find? (entityMatches dec name pid) = none) :
    ∀ (fuel k : Nat), k ≤ 100000 → 100001 ≤ k + fuel →
      getObjectLoop dec pages name pid k fuel =
        (ObjectSearchOutcome.tooManyResults, 100001) := by
  intro fuel
  induction fuel with
  | zero => intro k h1 h2; omega
  | succ fuel ih =>
    intro k h1 h2
    by_cases hk : k = 100000
    · subst hk
      simp only [getObjectLoop]
      split
      next hs => exact absurd hstat hs
      next =>
        split
        next e hfind =>
          rw [hnomatch] at hfind
          simp at hfind
        next =>
          split
          next => rfl
          next hcap => exact absurd (by omega) hcap
    · have hk1 := hfull (k + 1) (by omega) (by omega)
      simp only [getObjectLoop]
      split
      next hs => exact absurd hk1.1 hs
      next =>
        split
        next e hfind =>
          rw [hk1.2.1] at hfind
          simp at hfind
        next =>
          split
          next hcap => exact absurd hcap (by omega)
          next =>
            split
            next => exact ih (k + 1) (by omega) (by omega)
            next hlen => exact absurd hk1.2.2 hlen

/-- The `getIdByDir` component loop never fetches more pages than one
past the cap. -/
theorem getIdByDirLoop_pages_le (dec : String → String)
    (pages : Nat → SearchPage) (tdir : String) (pid : Int) :
    ∀ (fuel : Nat) (isFound : Bool) (pageNumber : Nat), pageNumber ≤ 100000 →
      (getIdByDirLoop dec pages tdir pid isFound pageNumber fuel).2
        ≤ 100001 := by
  intro fuel
  induction fuel with
  | zero =>
    intro b p hp
    simp only [getIdByDirLoop]
    omega
  | succ fuel ih =>
    intro b p hp
    simp only [getIdByDirLoop]
    split
    next => omega
    next =>
      split
      next => omega
      next =>
        split
        next => omega
        next hcap =>
          split
          next => exact ih _ (p + 1) (by omega)
          next =>
            split
            next => omega
            next => omega

/-- When every page before p is full (64 entities) and scanning it leaves
the running id and found flag unchanged, and page p is short and also
scans clean, the `getIdByDir` component loop stops exactly at page p with
dir-not-found. -/
theorem getIdByDirLoop_stop (dec : String → String)
    (pages : Nat → SearchPage) (tdir : String) (pid : Int) (p : Nat)
    (hfull : ∀ j, 1 ≤ j → j < p →
      scanDirPage dec tdir (pages j).entities (pid, false) = (pid, false)
      ∧ (pages j).entities.length = maxEntitiesPerPage)
    (hpcap : p ≤ 100000)
    (hscan : scanDirPage dec tdir (pages p).entities (pid, false)
      = (pid, false))
    (hshort : (pages p).entities.length < maxEntitiesPerPage) :
    ∀ (fuel k : Nat), k < p → p ≤ k + fuel →
      getIdByDirLoop dec pages tdir pid false k fuel =
        (DirSearchOutcome.dirNotFound, p) := by
  have h64 : maxEntitiesPerPage = 64 := rfl
  intro fuel
  induction fuel with
  | zero => intro k h1 h2; omega
  | succ fuel ih =>
    intro k h1 h2
    by_cases hkp : k + 1 = p
    · subst hkp
      simp only [getIdByDirLoop]
      split
      next => rfl
      next hne =>
        rw [hscan]
        split
        next hs => exact absurd rfl hs
        next =>
          split
          next hcap => exact absurd hcap (by omega)
          next =>
            split
            next hlen => exact absurd hlen (by omega)
            next =>
              split
              next hs2 => simp at hs2
              next => rfl
    · have hk1 := hfull (k + 1) (by omega) (by omega)
      simp only [getIdByDirLoop]
      split
      next hlen0 => exact absurd hk1.2 (by omega)
      next hne =>
        rw [hk1.1]
        split
        next hs => exact absurd rfl hs
        next =>
          split
          next hcap => exact absurd hcap (by omega)
          next =>
            split
            next => exact ih (k + 1) (by omega) (by omega)
            next hlen => exact absurd hk1.2 hlen

/-- When pages 1 through 100000 are all full and scan clean, and page
100001 is non-empty and scans clean, the `getIdByDir` component loop
fetches page 100001 and stops with the too-many-results error. -/
theorem getIdByDirLoop_cap (dec : String → String)
    (pages : Nat → SearchPage) (tdir : String) (pid : Int)
    (hfull : ∀ j, 1 ≤ j → j ≤ 100000 →
      scanDirPage dec tdir (pages j).entities (pid, false) = (pid, false)
      ∧ (pages j).entities.length = maxEntitiesPerPage)
    (hne : (pages 100001).entities.length ≠ 0)
    (hscan : scanDirPage dec tdir (pages 100001).entities (pid, false)
      = (pid, false)) :
    ∀ (fuel k : Nat), k ≤ 100000 → 100001 ≤ k + fuel →
      getIdByDirLoop dec pages tdir pid false k fuel =
        (DirSearchOutcome.tooManyResults, 100001) := by
  have h64 : maxEntitiesPerPage = 64 := rfl
  intro fuel
  induction fuel with
  | zero => intro k h1 h2; omega
  | succ fuel ih =>
    intro k h1 h2
    by_cases hk : k = 100000
    · subst hk
      simp only [getIdByDirLoop]
      split
      next hlen0 => exact absurd hlen0 hne
      next =>
        rw [hscan]
        split
        next hs => exact absurd rfl hs
        next =>
          split
          next => rfl
          next hcap => exact absurd (by omega) hcap
    · have hk1 := hfull (k + 1) (by omega) (by omega)
      simp only [getIdByDirLoop]
      split
      next hlen0 => exact absurd hk1.2 (by omega)
      next =>
        rw [hk1.1]
        split
        next hs => exact absurd rfl hs
        next =>
          split
          next hcap => exact absurd hcap (by omega)
          next =>
            split
            next => exact ih (k + 1) (by omega) (by omega)
            next hlen => exact absurd hk1.2 hlen

/-- C9: pagination in the search walker terminates.  For both the object
lookup (`getObject`) and the directory-id resolution (`getIdByDir`): (1)
the number of pages fetched is always at most 100001 (the hard cap plus
the page on which it is detected); (2) the loop stops as soon as a page
returns fewer than the page size of 64 entries (when the earlier pages
are full, OK and matchless, exactly that short page's number of pages is
fetched); (3) when every page up to the cap is full and matchless, the
loop stops right past the cap with a too-many-results error. -/
theorem pagination_termination :
    (∀ (dec : String → String) (pages : Nat → SearchPage) (name : String)
       (pid : Int), (getObjectGo dec pages name pid).2 ≤ 100001)
    ∧ (∀ (dec : String → String) (pages : Nat → SearchPage) (name : String)
         (pid : Int) (p : Nat),
        (∀ j, 1 ≤ j → j < p → (pages j).status = 1
          ∧ (pages j).entities.find? (entityMatches dec name pid) = none
          ∧ (pages j).entities.length = maxEntitiesPerPage) →
        1 ≤ p → p ≤ 100000 → (pages p).status = 1 →
        (pages p).entities.find? (entityMatches dec name pid) = none →
        (pages p).entities.length < maxEntitiesPerPage →
        getObjectGo dec pages name pid =
          (ObjectSearchOutcome.objectNotFound, p))
    ∧ (∀ (dec : String → String) (pages : Nat → SearchPage) (name : String)
         (pid : Int),
        (∀ j, 1 ≤ j → j ≤ 100000 → (pages j).status = 1
          ∧ (pages j).entities.find? (entityMatches dec name pid) = none
          ∧ (pages j).entities.length = maxEntitiesPerPage) →
        (pages 100001).status = 1 →
        (pages 100001).entities.find? (entityMatches dec name pid) = none →
        getObjectGo dec pages name pid =
          (ObjectSearchOutcome.tooManyResults, 100001))
    ∧ (∀ (dec : String → String) (pages : Nat → SearchPage) (tdir : String)
         (pid : Int), (getIdByDirGo dec pages tdir pid).2 ≤ 100001)
    ∧ (∀ (dec : String → String) (pages : Nat → SearchPage) (tdir : String)
         (pid : Int) (p : Nat),
        (∀ j, 1 ≤ j → j < p →
          scanDirPage dec tdir (pages j).entities (pid, false) = (pid, false)
          ∧ (pages j).entities.length = maxEntitiesPerPage) →
        1 ≤ p → p ≤ 100000 →
        scanDirPage dec tdir (pages p).entities (pid, false) = (pid, false) →
        (pages p).entities.length < maxEntitiesPerPage →
        getIdByDirGo dec pages tdir pid = (DirSearchOutcome.dirNotFound, p))
    ∧ (∀ (dec : String → String) (pages : Nat → SearchPage) (tdir : String)
         (pid : Int),
        (∀ j, 1 ≤ j → j ≤ 100000 →
          scanDirPage dec tdir (pages j).entities (pid, false) = (pid, false)
          ∧ (pages j).entities.length = maxEntitiesPerPage) →
        (pages 100001).entities.length ≠ 0 →
        scanDirPage dec tdir (pages 100001).entities (pid, false)
          = (pid, false) →
        getIdByDirGo dec pages tdir pid =
          (DirSearchOutcome.tooManyResults, 100001)) := by
  refine ⟨?_, ?_, ?_, ?_, ?_, ?_⟩
  · intro dec pages name pid
    exact getObjectLoop_pages_le dec pages name pid 100002 0 (by omega)
  · intro dec pages name pid p hfull hp1 hpcap hstat hnomatch hshort
    exact getObjectLoop_stop dec pages name pid p hfull hpcap hstat hnomatch
      hshort 100002 0 (by omega) (by omega)
  · intro dec pages name pid hfull hstat hnomatch
    exact getObjectLoop_cap dec pages name pid hfull hstat hnomatch
      100002 0 (by omega) (by omega)
  · intro dec pages tdir pid
    exact getIdByDirLoop_pages_le dec pages tdir pid 100002 false 0 (by omega)
  · intro dec pages tdir pid p hfull hp1 hpcap hscan hshort
    exact getIdByDirLoop_stop dec pages tdir pid p hfull hpcap hscan hshort
      100002 0 (by omega) (by omega)
  · intro dec pages tdir pid hfull hne hscan
    exact getIdByDirLoop_cap dec pages tdir pid hfull hne hscan
      100002 0 (by omega) (by omega)

set_option maxRecDepth 8192 in
/-- C9 witness: on the oracle that always answers with an OK empty page,
both loops stop at page 1; on the oracle that always answers with a full
matchless page, both loops stop right past the cap at page 100001. -/
theorem pagination_termination_witness :
    getObjectGo id (fun _ => emptyOkPage) "a" 0 =
      (ObjectSearchOutcome.objectNotFound, 1)
    ∧ getObjectGo id (fun _ => fullNoMatchPage) "a" 0 =
      (ObjectSearchOutcome.tooManyResults, 100001)
    ∧ (getObjectGo id (fun _ => emptyOkPage) "a" 0).2 ≤ 100001
    ∧ getIdByDirGo id (fun _ => emptyOkPage) "d" 0 =
      (DirSearchOutcome.dirNotFound, 1)
    ∧ getIdByDirGo id (fun _ => fullNoMatchPage) "d" 0 =
      (DirSearchOutcome.tooManyResults, 100001)
    ∧ (getIdByDirGo id (fun _ => emptyOkPage) "d" 0).2 ≤ 100001 := by
  refine ⟨?_, ?_, ?_, ?_, ?_, ?_⟩
  · exact pagination_termination.2.1 id (fun _ => emptyOkPage) "a" 0 1
      (fun j h1 h2 => absurd (by omega : j < j) (by omega))
      (by decide) (by decide) rfl rfl (by decide)
  · have hfind : fullNoMatchPage.entities.find? (entityMatches id "a" 0)
        = none := by decide
    have hlen : fullNoMatchPage.entities.length = maxEntitiesPerPage := by
      decide
    exact pagination_termination.2.2.1 id (fun _ => fullNoMatchPage) "a" 0
      (fun j _ _ => ⟨rfl, hfind, hlen⟩) rfl hfind
  · exact pagination_termination.1 id (fun _ => emptyOkPage) "a" 0
  · exact pagination_termination.2.2.2.2.1 id (fun _ => emptyOkPage) "d" 0 1
      (fun j h1 h2 => absurd (by omega : j < j) (by omega))
      (by decide) (by decide) rfl (by decide)
  · have hscan : scanDirPage id "d" fullNoMatchPage.entities (0, false)
        = (0, false) := by decide
    have hlen : fullNoMatchPage.entities.length = maxEntitiesPerPage := by
      decide
    exact pagination_termination.2.2.2.2.2 id (fun _ => fullNoMatchPage) "d" 0
      (fun j _ _ => ⟨hscan, hlen⟩) (by decide) hscan
  · exact pagination_termination.2.2.2.1 id (fun _ => emptyOkPage) "d" 0
